import Mathlib

/-!
Shallow embedding of `src/server.py`, a minimal concurrent HTTP server:
an accept loop feeding a bounded connection queue, a pool of worker
threads (`HTTPWorker.run`), a per-connection handler
(`HTTPWorker.handle_client`) and a static file resolver (`serve_file`).

Python strings are modelled as Lean `String` (working over `.data` char
lists), machine integers as `Int`/`Nat`, exceptions as explicit
`Option PyErr` results, and the filesystem / collaborator objects
(`Request`, `Response`, `mimetypes`) as oracle functions supplied in an
environment record.  Observable behaviour (responses sent, files opened,
body reads, socket close) is recorded as an event trace.
-/

namespace PyServer

/-- Python exception values relevant to the server (all subclasses of
`Exception`, hence caught by `except Exception`). -/
inductive PyErr where
  | parseError
  | valueError
  | ioError
  | isADirectoryError
  | permissionError
  | other (n : Nat)
deriving DecidableEq, Repr

/-! ### Python string primitives, over char lists -/

/-- `s` begins with `pre` (Python `str.startswith`). -/
def listStarts : List Char → List Char → Bool
  | _, [] => true
  | [], _ :: _ => false
  | a :: as, b :: bs => a == b && listStarts as bs

/-- Python `str.startswith` on `String`. -/
def strStarts (s pre : String) : Bool := listStarts s.data pre.data

/-- Python `str.endswith` on `String`. -/
def strEnds (s suf : String) : Bool := listStarts s.data.reverse suf.data.reverse

/-- Substring search over char lists (Python `pat in hay`). -/
def listHasSub : List Char → List Char → Bool
  | [], pat => pat == []
  | c :: rest, pat => listStarts (c :: rest) pat || listHasSub rest pat

/-- Python membership test `pat in hay` for strings. -/
def strHasSub (hay pat : String) : Bool := listHasSub hay.data pat.data

/-- Python `path.lstrip("/")`: drop every leading slash. -/
def lstripSlash (s : String) : String := ⟨s.data.dropWhile (· == '/')⟩

/-! ### Python `int()` (ASCII): optional surrounding whitespace, one
optional sign, digits with single underscores strictly between digits. -/

/-- Strip trailing ASCII whitespace. -/
def stripEndWS (s : List Char) : List Char :=
  (s.reverse.dropWhile Char.isWhitespace).reverse

/-- Strip leading and trailing whitespace (Python `str.strip()` as used
by `int()`). -/
def pyStrip (s : List Char) : List Char :=
  stripEndWS (s.dropWhile Char.isWhitespace)

/-- Digits after the first one; a `_` must be followed by a digit. -/
def digitsValAux : Nat → List Char → Option Nat
  | acc, [] => some acc
  | acc, '_' :: c :: rest =>
      if c.isDigit then digitsValAux (acc * 10 + (c.toNat - 48)) rest else none
  | _, ['_'] => none
  | acc, c :: rest =>
      if c.isDigit then digitsValAux (acc * 10 + (c.toNat - 48)) rest else none

/-- Value of a digit group; must start with a digit. -/
def digitsVal : List Char → Option Nat
  | [] => none
  | c :: rest =>
      if c.isDigit then digitsValAux (c.toNat - 48) rest else none

/-- Python `int(s)`: `none` models a raised `ValueError`. -/
def pythonInt (s : String) : Option Int :=
  match pyStrip s.data with
  | '+' :: rest => (digitsVal rest).map Int.ofNat
  | '-' :: rest => (digitsVal rest).map (fun n => -(Int.ofNat n))
  | rest => (digitsVal rest).map Int.ofNat

/-! ### POSIX path functions (`os.path`) -/

/-- `os.path.join(a, b)` (POSIX, two arguments). -/
def osJoin (a b : String) : String :=
  if strStarts b "/" then b
  else if a = "" ∨ strEnds a "/" then a ++ b
  else a ++ "/" ++ b

/-- Split a char list on `'/'` (Python `s.split("/")`). -/
def splitOnSlash : List Char → List (List Char)
  | [] => [[]]
  | '/' :: rest => [] :: splitOnSlash rest
  | c :: rest =>
      match splitOnSlash rest with
      | g :: gs => (c :: g) :: gs
      | [] => [[c]]

/-- Rejoin components with `'/'` (Python `"/".join`). -/
def joinSlash : List (List Char) → List Char
  | [] => []
  | [g] => g
  | g :: gs => g ++ '/' :: joinSlash gs

/-- One step of `posixpath.normpath`'s component loop: skip empty and
`.` components, pop on `..` unless at an absolute root or accumulating
leading `..`s of a relative path. -/
def normStep (slashes : Nat) (acc : List (List Char)) (comp : List Char) :
    List (List Char) :=
  if comp = [] ∨ comp = ['.'] then acc
  else if comp ≠ ['.', '.'] ∨ (slashes = 0 ∧ acc = []) ∨
      (acc.getLast? = some ['.', '.']) then
    acc ++ [comp]
  else acc.dropLast

/-- `os.path.normpath` (POSIX): collapses `.`, `..` and repeated
slashes; preserves the special leading `//`. -/
def normpath (p : String) : String :=
  if p = "" then "." else
  let slashes : Nat :=
    if strStarts p "//" ∧ ¬ strStarts p "///" then 2
    else if strStarts p "/" then 1 else 0
  let comps := splitOnSlash p.data
  let newComps := comps.foldl (normStep slashes) []
  let res : List Char := List.replicate slashes '/' ++ joinSlash newComps
  if res = [] then "." else ⟨res⟩

/-- `os.path.isabs`. -/
def isabs (p : String) : Bool := strStarts p "/"

/-- `os.path.abspath`, with the process working directory explicit. -/
def abspath (cwd p : String) : String :=
  normpath (if isabs p then p else osJoin cwd p)

/-! ### Observable behaviour of one connection -/

/-- Observable actions of `handle_client` / `serve_file` on one
connection, in order of occurrence. -/
inductive Event where
  | sent (status : Nat)
  | sentFile (path contentType : String)
  | fileOpen (path : String)
  | fileClose
  | bodyRead (n : Int)
  | socketClosed
deriving DecidableEq, Repr

/-- Result of `open(path, "rb")` as seen through the filesystem
oracle. -/
inductive OpenOutcome where
  | ok
  | missing
  | failed (e : PyErr)
deriving DecidableEq, Repr

/-- The `Request` collaborator's view of a parsed request:
`headers` is the header mapping's `get` (as a total lookup), and
`readBody n` is the outcome of `req.body.read(n)` (`some e` = raised). -/
structure Request where
  method : String
  path : String
  headers : String → Option String
  readBody : Int → Option PyErr

/-- The ambient world of one connection: the parse outcome, the outcome
of the k-th `send` call on the socket, the filesystem, the
`mimetypes.guess_type` table, and the process working directory. -/
structure Env where
  parseResult : Except PyErr Request
  send : Nat → Option PyErr
  fs : String → OpenOutcome
  guess : String → Option String × Option String
  cwd : String

/-- Handler state: events so far and the index of the next send call. -/
structure St where
  events : List Event
  sendIdx : Nat
deriving DecidableEq, Repr

def St.init : St := ⟨[], 0⟩

def St.emit (st : St) (e : Event) : St := ⟨st.events ++ [e], st.sendIdx⟩

/-- `Response.from_status_code(status).send(sock)`: records the send on
success, raises the oracle's error otherwise. -/
def doSend (env : Env) (st : St) (status : Nat) : St × Option PyErr :=
  match env.send st.sendIdx with
  | none => (⟨st.events ++ [Event.sent status], st.sendIdx + 1⟩, none)
  | some e => (⟨st.events, st.sendIdx + 1⟩, some e)

/-! ### `serve_file` (src/server.py lines 107-136) -/

/-- Line 114-115: `if path == "/": path = "/index.html"`. -/
def rewriteRoot (path : String) : String :=
  if path = "/" then "/index.html" else path

/-- Line 117: `os.path.normpath(os.path.join(root_path, path.lstrip("/")))`,
applied after the root rewrite. -/
def candidatePath (rootPath path : String) : String :=
  normpath (osJoin rootPath (lstripSlash (rewriteRoot path)))

/-- Lines 124-128: content type from `mimetypes.guess_type`, defaulting
to `application/octet-stream`, with `"; charset="` appended when an
encoding is inferred. -/
def contentTypeOf (guess : String → Option String × Option String)
    (p : String) : String :=
  let ct := (guess p).1.getD "application/octet-stream"
  match (guess p).2 with
  | some enc => ct ++ "; charset=" ++ enc
  | none => ct

/-- `serve_file(sock, path, root)`: sandbox check on the normalized
candidate, then open; only `FileNotFoundError` is caught (line 134),
any other open failure propagates as the second component. -/
def serve_file (env : Env) (st : St) (path root : String) :
    St × Option PyErr :=
  let rootPath := abspath env.cwd root
  let cand := candidatePath rootPath path
  if ¬ strStarts cand rootPath then
    doSend env st 404
  else
    match env.fs cand with
    | OpenOutcome.failed e => (st, some e)
    | OpenOutcome.missing => doSend env st 404
    | OpenOutcome.ok =>
      let st := st.emit (Event.fileOpen cand)
      match env.send st.sendIdx with
      | none =>
          (⟨st.events ++ [Event.sentFile cand (contentTypeOf env.guess cand),
              Event.fileClose], st.sendIdx + 1⟩, none)
      | some e => (⟨st.events ++ [Event.fileClose], st.sendIdx + 1⟩, some e)

/-! ### `handle_client` (src/server.py lines 76-104) -/

/-- Lines 88-91: `int(req.headers.get("content-length", "0"))` with
`ValueError` mapped to 0. -/
def contentLength (req : Request) : Int :=
  (pythonInt ((req.headers "content-length").getD "0")).getD 0

/-- Line 85: `"100-continue" in req.headers.get("expect", "")`. -/
def expectsContinue (req : Request) : Bool :=
  strHasSub ((req.headers "expect").getD "") "100-continue"

/-- Sequence two fallible steps: a raised exception skips the rest. -/
def seqE (a : St × Option PyErr) (f : St → St × Option PyErr) :
    St × Option PyErr :=
  match a.2 with
  | some e => (a.1, some e)
  | none => f a.1

/-- Lines 85-86: conditional interim 100 response. -/
def step100 (env : Env) (req : Request) (st : St) : St × Option PyErr :=
  if expectsContinue req then doSend env st 100 else (st, none)

/-- Lines 93-95: drain the body when the declared length is truthy
(Python `if content_len:`, i.e. nonzero). -/
def stepBody (req : Request) (st : St) : St × Option PyErr :=
  let cl := contentLength req
  if cl ≠ 0 then (st.emit (Event.bodyRead cl), req.readBody cl)
  else (st, none)

/-- Lines 97-101: 405 for non-GET, otherwise delegate to `serve_file`
with the default root `"www"`. -/
def stepMethod (env : Env) (req : Request) (st : St) : St × Option PyErr :=
  if req.method ≠ "GET" then doSend env st 405
  else serve_file env st req.path "www"

/-- Lines 84-101: the body of the `try` block. -/
def tryBlock (env : Env) : St × Option PyErr :=
  match env.parseResult with
  | Except.error e => (St.init, some e)
  | Except.ok req =>
      seqE (step100 env req St.init) (fun st =>
        seqE (stepBody req st) (fun st => stepMethod env req st))

/-- Lines 102-104: `except Exception` sends a 404 (that send may itself
raise, and then escapes `handle_client`). -/
def exceptBlock (env : Env) (a : St × Option PyErr) : St × Option PyErr :=
  match a.2 with
  | none => a
  | some _ => doSend env a.1 404

/-- `handle_client`: try/except wrapped in `with client_sock`, which
closes the socket on every exit path, exceptional or not. -/
def handle_client (env : Env) : St × Option PyErr :=
  let b := exceptBlock env (tryBlock env)
  (b.1.emit Event.socketClosed, b.2)

/-! ### Worker (src/server.py lines 52-74) -/

/-- Worker state: just the `running` flag (line 56). -/
structure HTTPWorker where
  running : Bool
deriving DecidableEq, Repr

/-- `__init__` (line 56): `self.running = True`. -/
def HTTPWorker.init : HTTPWorker := ⟨true⟩

/-- `stop` (lines 58-59): `self.running = False`. -/
def HTTPWorker.stop (_ : HTTPWorker) : HTTPWorker := ⟨false⟩

/-- First action of `run` (line 62): `self.running = True`. -/
def HTTPWorker.runEntry (_ : HTTPWorker) : HTTPWorker := ⟨true⟩

/-- The `while` condition of the worker loop (line 63). -/
def HTTPWorker.loopCondition (w : HTTPWorker) : Bool := w.running

/-- Outcome of `connection_queue.get(timeout=1)`. -/
inductive GetResult where
  | empty
  | conn (env : Env)

/-- Result of one pass through the worker loop body. -/
structure IterOutcome where
  worker : HTTPWorker
  handled : Bool
  taskDone : Bool
deriving Repr

/-- One pass of the loop body (lines 63-74).  `Except.error` would model
an exception escaping the loop body; the `except Exception` handler
(lines 70-72) catches whatever escapes `handle_client`, and the
`finally` (lines 73-74) always calls `task_done`. -/
def runIteration (w : HTTPWorker) (g : GetResult) : Except PyErr IterOutcome :=
  match g with
  | GetResult.empty => Except.ok ⟨w, false, false⟩
  | GetResult.conn env =>
      Except.ok ⟨w, (handle_client env).2.isNone, true⟩

/-! ### Bounded queue and server config (src/server.py lines 13-24, 39-43) -/

/-- Python `queue.Queue`: `maxsize <= 0` means unbounded. -/
structure PyQueue (α : Type) where
  maxsize : Int
  items : List α

/-- `Queue(maxsize)`. -/
def PyQueue.empty (α : Type) (maxsize : Int) : PyQueue α := ⟨maxsize, []⟩

/-- Blocking `put`: `none` means the producer blocks (the queue is full);
otherwise the item is appended at the back. -/
def PyQueue.put {α : Type} (q : PyQueue α) (x : α) : Option (PyQueue α) :=
  if 0 < q.maxsize ∧ (q.maxsize ≤ (q.items.length : Int)) then none
  else some ⟨q.maxsize, q.items ++ [x]⟩

/-- `get`: `none` means the consumer blocks (empty queue); FIFO head
otherwise. -/
def PyQueue.get {α : Type} (q : PyQueue α) : Option (α × PyQueue α) :=
  match q.items with
  | [] => none
  | x :: rest => some (x, ⟨q.maxsize, rest⟩)

/-- `HTTPServer.__init__` fields (lines 14-24). -/
structure HTTPServer where
  host : String
  port : Nat
  worker_count : Nat
  worker_backlog : Nat

/-- Lines 20-23: stores config and derives `worker_backlog`. -/
def HTTPServer.init (host : String) (port worker_count : Nat) : HTTPServer :=
  ⟨host, port, worker_count, worker_count * 8⟩

/-- Line 24: `self.connection_queue = Queue(self.worker_backlog)`. -/
def HTTPServer.connection_queue (s : HTTPServer) (α : Type) : PyQueue α :=
  PyQueue.empty α (s.worker_backlog : Int)

/-! ### Derived trace characterizations (proved below, used by the
claim theorems) -/

/-- Events appended by `serve_file` when every send succeeds. -/
def resolveEvents (env : Env) (path root : String) : List Event :=
  let rootPath := abspath env.cwd root
  let cand := candidatePath rootPath path
  if ¬ strStarts cand rootPath then [Event.sent 404]
  else
    match env.fs cand with
    | OpenOutcome.failed _ => []
    | OpenOutcome.missing => [Event.sent 404]
    | OpenOutcome.ok =>
        [Event.fileOpen cand, Event.sentFile cand (contentTypeOf env.guess cand),
         Event.fileClose]

/-- The exception (if any) escaping `serve_file` when every send
succeeds: exactly the non-`FileNotFoundError` open failures. -/
def resolveRaises (env : Env) (path root : String) : Option PyErr :=
  let rootPath := abspath env.cwd root
  let cand := candidatePath rootPath path
  if ¬ strStarts cand rootPath then none
  else
    match env.fs cand with
    | OpenOutcome.failed e => some e
    | _ => none

/-- Events of steps 2-4 (interim 100, body drain). -/
def preEvents (req : Request) : List Event :=
  (if expectsContinue req then [Event.sent 100] else []) ++
  (if contentLength req ≠ 0 then [Event.bodyRead (contentLength req)] else [])

/-- Send-call count of steps 2-4. -/
def preIdx (req : Request) : Nat := if expectsContinue req then 1 else 0

/-- Full event trace of `handle_client` for a successfully parsed
request when sends and body reads succeed. -/
def handlerEvents (env : Env) (req : Request) : List Event :=
  preEvents req ++
  (if req.method ≠ "GET" then [Event.sent 405]
   else
     resolveEvents env req.path "www" ++
     (match resolveRaises env req.path "www" with
      | some _ => [Event.sent 404]
      | none => [])) ++
  [Event.socketClosed]

theorem doSend_ok (env : Env) (st : St) (s : Nat)
    (hs : env.send st.sendIdx = none) :
    doSend env st s = (⟨st.events ++ [Event.sent s], st.sendIdx + 1⟩, none) := by
  simp [doSend, hs]

theorem serve_file_ok (env : Env) (st : St) (path root : String)
    (hs : ∀ k, env.send k = none) :
    (serve_file env st path root).1.events =
      st.events ++ resolveEvents env path root ∧
    (serve_file env st path root).2 = resolveRaises env path root := by
  unfold serve_file resolveEvents resolveRaises
  by_cases h : strStarts (candidatePath (abspath env.cwd root) path)
      (abspath env.cwd root)
  · simp only [h, not_true_eq_false, if_false]
    cases hfs : env.fs (candidatePath (abspath env.cwd root) path) with
    | failed e => simp [hfs]
    | missing => simp [hfs, doSend, hs]
    | ok => simp [hfs, St.emit, hs]
  · simp [h, doSend, hs]

/-! ### Concrete fixtures used to instantiate the theorems -/

/-- Sends that always succeed (client stays connected). -/
def sendOk : Nat → Option PyErr := fun _ => none

/-- Empty header mapping. -/
def hdrNone : String → Option String := fun _ => none

/-- Header mapping with just `content-length`. -/
def hdrCL (v : String) : String → Option String :=
  fun k => if k = "content-length" then some v else none

/-- Header mapping with just `expect: 100-continue`. -/
def hdrExpect : String → Option String :=
  fun k => if k = "expect" then some "100-continue" else none

def reqRoot : Request := ⟨"GET", "/", hdrNone, fun _ => none⟩

def reqEmptyPath : Request := ⟨"GET", "", hdrNone, fun _ => none⟩

def reqPost : Request := ⟨"POST", "/index.html", hdrNone, fun _ => none⟩

def reqNegLen : Request := ⟨"GET", "/x", hdrCL "-1", fun _ => none⟩

def reqExpect : Request := ⟨"GET", "/", hdrExpect, fun _ => none⟩

def reqEvil : Request := ⟨"GET", "/../wwwevil/x", hdrNone, fun _ => none⟩

def reqSecret : Request := ⟨"GET", "/secret.txt", hdrNone, fun _ => none⟩

/-- A document root `/srv/www` containing only `index.html`; opening the
directory itself raises `IsADirectoryError`. -/
def fsWwwIndex : String → OpenOutcome := fun p =>
  if p = "/srv/www/index.html" then OpenOutcome.ok
  else if p = "/srv/www" then OpenOutcome.failed PyErr.isADirectoryError
  else OpenOutcome.missing

/-- A filesystem where every open succeeds. -/
def fsAllOk : String → OpenOutcome := fun _ => OpenOutcome.ok

/-- A filesystem where every open is denied. -/
def fsDenied : String → OpenOutcome := fun _ =>
  OpenOutcome.failed PyErr.permissionError

/-- `mimetypes.guess_type` restricted to `.html`. -/
def guessHtml : String → Option String × Option String := fun p =>
  if strEnds p ".html" then (some "text/html", none) else (none, none)

/-- Environment with working directory `/srv` and healthy I/O. -/
def envOf (r : Request) (fs : String → OpenOutcome) : Env :=
  ⟨Except.ok r, sendOk, fs, guessHtml, "/srv"⟩

def envRoot : Env := envOf reqRoot fsWwwIndex
def envEmptyPath : Env := envOf reqEmptyPath fsWwwIndex
def envPost : Env := envOf reqPost fsWwwIndex
def envNegLen : Env := envOf reqNegLen fsWwwIndex
def envExpect : Env := envOf reqExpect fsWwwIndex
def envEvil : Env := envOf reqEvil fsAllOk
def envDenied : Env := envOf reqSecret fsDenied

def envParseFail : Env :=
  ⟨Except.error PyErr.parseError, sendOk, fsWwwIndex, guessHtml, "/srv"⟩

theorem exceptBlock_of_none (env : Env) (a : St × Option PyErr)
    (h : a.2 = none) : exceptBlock env a = a := by
  unfold exceptBlock; rw [h]

theorem tryBlock_err (env : Env) (e : PyErr)
    (hp : env.parseResult = Except.error e) :
    tryBlock env = (St.init, some e) := by
  unfold tryBlock; rw [hp]

theorem tryBlock_eq (env : Env) (req : Request)
    (hp : env.parseResult = Except.ok req)
    (hs : ∀ k, env.send k = none)
    (hb : ∀ n, req.readBody n = none) :
    tryBlock env =
      if req.method ≠ "GET" then
        (⟨preEvents req ++ [Event.sent 405], preIdx req + 1⟩, none)
      else serve_file env ⟨preEvents req, preIdx req⟩ req.path "www" := by
  have hds : ∀ (st : St) (s : Nat),
      doSend env st s = (⟨st.events ++ [Event.sent s], st.sendIdx + 1⟩, none) :=
    fun st s => doSend_ok env st s (hs st.sendIdx)
  unfold tryBlock
  rw [hp]
  unfold seqE step100 stepBody stepMethod
  by_cases h100 : expectsContinue req <;>
  by_cases hcl : contentLength req ≠ 0 <;>
  by_cases hm : req.method ≠ "GET" <;>
  simp [h100, hcl, hm, hds, hb, St.emit, St.init, preEvents, preIdx]

theorem handle_client_ok (env : Env) (req : Request)
    (hp : env.parseResult = Except.ok req)
    (hs : ∀ k, env.send k = none)
    (hb : ∀ n, req.readBody n = none) :
    (handle_client env).1.events = handlerEvents env req ∧
    (handle_client env).2 = none := by
  have hds : ∀ (st : St) (s : Nat),
      doSend env st s = (⟨st.events ++ [Event.sent s], st.sendIdx + 1⟩, none) :=
    fun st s => doSend_ok env st s (hs st.sendIdx)
  unfold handle_client
  rw [tryBlock_eq env req hp hs hb]
  unfold handlerEvents
  by_cases hm : req.method ≠ "GET"
  · rw [if_pos hm, if_pos hm,
      exceptBlock_of_none env (⟨preEvents req ++ [Event.sent 405], preIdx req + 1⟩, none) rfl]
    simp [St.emit]
  · rw [if_neg hm, if_neg hm]
    obtain ⟨he, hr⟩ :=
      serve_file_ok env ⟨preEvents req, preIdx req⟩ req.path "www" hs
    unfold exceptBlock
    rw [hr]
    rcases hres : resolveRaises env req.path "www" with _ | e
    · constructor
      · simp only [St.emit]
        rw [he]
        simp
      · exact hr.trans hres
    · constructor
      · simp only [St.emit, hds]
        rw [he]
        simp
      · simp [hds]

/-- Spec-side notion of a path lying inside the document root: the root
itself or a path strictly beneath the root directory.  Used to compare
the spec's containment claim with the code's string test. -/
def insideDocRoot (root p : String) : Bool :=
  p == root || strStarts p (root ++ "/")

theorem getLast?_concat_eq {α : Type} (l : List α) (a : α) :
    (l ++ [a]).getLast? = some a := by
  simp

/-- Exhaustive case analysis of `serve_file`'s observable outcome when
all sends succeed. -/
theorem resolve_cases (env : Env) (path root : String) :
    (resolveEvents env path root = [Event.sent 404] ∧
      resolveRaises env path root = none) ∨
    (∃ e, resolveEvents env path root = [] ∧
      resolveRaises env path root = some e ∧
      env.fs (candidatePath (abspath env.cwd root) path) = OpenOutcome.failed e) ∨
    (resolveEvents env path root =
      [Event.fileOpen (candidatePath (abspath env.cwd root) path),
       Event.sentFile (candidatePath (abspath env.cwd root) path)
         (contentTypeOf env.guess (candidatePath (abspath env.cwd root) path)),
       Event.fileClose] ∧
      resolveRaises env path root = none ∧
      strStarts (candidatePath (abspath env.cwd root) path)
        (abspath env.cwd root) = true ∧
      env.fs (candidatePath (abspath env.cwd root) path) = OpenOutcome.ok) := by
  unfold resolveEvents resolveRaises
  by_cases h : strStarts (candidatePath (abspath env.cwd root) path)
      (abspath env.cwd root) = true
  · cases hfs : env.fs (candidatePath (abspath env.cwd root) path) with
    | ok => right; right; simp [h, hfs]
    | missing => left; simp [h, hfs]
    | failed e => right; left; exact ⟨e, by simp [h, hfs]⟩
  · left; simp [h]

theorem bodyRead_mem_handlerEvents (env : Env) (req : Request) (n : Int)
    (h : Event.bodyRead n ∈ handlerEvents env req) :
    n = contentLength req ∧ contentLength req ≠ 0 := by
  unfold handlerEvents preEvents at h
  rcases resolve_cases env req.path "www" with ⟨he, hr⟩ | ⟨e, he, hr, _⟩ | ⟨he, hr, _, _⟩ <;>
  by_cases h1 : expectsContinue req <;>
  by_cases h2 : contentLength req ≠ 0 <;>
  by_cases h3 : req.method ≠ "GET" <;>
  simp_all

theorem bodyRead_mem_handlerEvents_of (env : Env) (req : Request)
    (h : contentLength req ≠ 0) :
    Event.bodyRead (contentLength req) ∈ handlerEvents env req := by
  unfold handlerEvents preEvents
  simp [h]

theorem sent100_mem_handlerEvents (env : Env) (req : Request) :
    Event.sent 100 ∈ handlerEvents env req ↔ expectsContinue req = true := by
  constructor
  · intro h
    unfold handlerEvents preEvents at h
    rcases resolve_cases env req.path "www" with ⟨he, hr⟩ | ⟨e, he, hr, _⟩ | ⟨he, hr, _, _⟩ <;>
    by_cases h1 : expectsContinue req <;>
    by_cases h2 : contentLength req ≠ 0 <;>
    by_cases h3 : req.method ≠ "GET" <;>
    simp_all
  · intro h
    unfold handlerEvents preEvents
    simp [h]

theorem head_handlerEvents (env : Env) (req : Request) :
    (handlerEvents env req).head? = some (Event.sent 100) ↔
      expectsContinue req = true := by
  constructor
  · intro h
    unfold handlerEvents preEvents at h
    rcases resolve_cases env req.path "www" with ⟨he, hr⟩ | ⟨e, he, hr, _⟩ | ⟨he, hr, _, _⟩ <;>
    by_cases h1 : expectsContinue req <;>
    by_cases h2 : contentLength req ≠ 0 <;>
    by_cases h3 : req.method ≠ "GET" <;>
    simp_all
  · intro h
    unfold handlerEvents preEvents
    simp [h]

theorem final_mem_handlerEvents (env : Env) (req : Request) :
    Event.sent 405 ∈ handlerEvents env req ∨
    Event.sent 404 ∈ handlerEvents env req ∨
    ∃ p ct, Event.sentFile p ct ∈ handlerEvents env req := by
  unfold handlerEvents
  by_cases h3 : req.method ≠ "GET"
  · left; simp [h3]
  · rcases resolve_cases env req.path "www" with ⟨he, hr⟩ | ⟨e, he, hr, _⟩ | ⟨he, hr, _, _⟩
    · right; left; simp [h3, he, hr]
    · right; left; simp [h3, he, hr]
    · right; right
      refine ⟨candidatePath (abspath env.cwd "www") req.path,
        contentTypeOf env.guess (candidatePath (abspath env.cwd "www") req.path), ?_⟩
      simp [h3, he, hr]

theorem fileOpen_not_mem_handlerEvents_of_failed (env : Env) (req : Request)
    (e : PyErr)
    (hfs : env.fs (candidatePath (abspath env.cwd "www") req.path) =
      OpenOutcome.failed e) (p : String) :
    Event.fileOpen p ∉ handlerEvents env req := by
  intro h
  unfold handlerEvents preEvents at h
  rcases resolve_cases env req.path "www" with ⟨he, hr⟩ | ⟨e2, he, hr, _⟩ | ⟨he, hr, _, hok⟩ <;>
  by_cases h1 : expectsContinue req <;>
  by_cases h2 : contentLength req ≠ 0 <;>
  by_cases h3 : req.method ≠ "GET" <;>
  simp_all

/-! ### Claim C1 -/

/-- C1, counterexample: the request path `/../wwwevil/x` normalizes to
`/srv/wwwevil/x`, which lies outside the document root `/srv/www`
(`insideDocRoot` is false), yet `serve_file` passes its sandbox check
(the root string is a prefix of the sibling directory's name) and serves
the file instead of returning 404. -/
theorem c1_counterexample :
    insideDocRoot "/srv/www" "/srv/wwwevil/x" = false ∧
    abspath envEvil.cwd "www" = "/srv/www" ∧
    candidatePath "/srv/www" "/../wwwevil/x" = "/srv/wwwevil/x" ∧
    (serve_file envEvil St.init "/../wwwevil/x" "www").1.events =
      [Event.fileOpen "/srv/wwwevil/x",
       Event.sentFile "/srv/wwwevil/x" "application/octet-stream",
       Event.fileClose] ∧
    (serve_file envEvil St.init "/../wwwevil/x" "www").2 = none :=
  ⟨rfl, by decide, by decide, by decide, rfl⟩

/-- C1 (amended): the sandbox check of `serve_file` is a string test on
the normalized candidate path: (1) whenever the normalized candidate
does not start with the canonical root string, `serve_file` sends
exactly a 404 and accesses no file; (2) any file response `serve_file`
produces is for the normalized candidate path, which then starts with
the canonical root string.  (String-prefix containment only: normalized
candidates under a sibling directory whose name extends the root's name
pass the check, as `c1_counterexample` shows.) -/
theorem c1_sandbox_check :
    (∀ (env : Env) (st : St) (path root : String),
       env.send st.sendIdx = none →
       strStarts (candidatePath (abspath env.cwd root) path)
         (abspath env.cwd root) = false →
       serve_file env st path root =
         (⟨st.events ++ [Event.sent 404], st.sendIdx + 1⟩, none)) ∧
    (∀ (env : Env) (st : St) (path root p ct : String),
       Event.sentFile p ct ∈ (serve_file env st path root).1.events →
       Event.sentFile p ct ∉ st.events →
       p = candidatePath (abspath env.cwd root) path ∧
       strStarts p (abspath env.cwd root) = true) := by
  constructor
  · intro env st path root hsend h
    simp [serve_file, h, doSend, hsend]
  · intro env st path root p ct hmem hnot
    by_cases h : strStarts (candidatePath (abspath env.cwd root) path)
        (abspath env.cwd root) = true
    · simp only [serve_file, h, not_true_eq_false, if_false] at hmem
      cases hfs : env.fs (candidatePath (abspath env.cwd root) path) with
      | failed e => simp_all
      | missing =>
          rw [hfs] at hmem
          unfold doSend at hmem
          cases hsend : env.send st.sendIdx <;> simp_all
      | ok =>
          rw [hfs] at hmem
          simp only [St.emit] at hmem
          cases hsend : env.send st.sendIdx <;> simp_all
    · simp only [serve_file] at hmem
      rw [if_pos (by simpa using h)] at hmem
      unfold doSend at hmem
      cases hsend : env.send st.sendIdx <;> simp_all

/-- C1 witness: `GET /../../etc/passwd` with root `www` and working
directory `/srv` normalizes to `/etc/passwd`, fails the string check,
and gets exactly a 404. -/
theorem c1_sandbox_check_witness :
    strStarts (candidatePath (abspath envEvil.cwd "www") "/../../etc/passwd")
      (abspath envEvil.cwd "www") = false ∧
    serve_file envEvil St.init "/../../etc/passwd" "www" =
      (⟨[Event.sent 404], 1⟩, none) :=
  ⟨by decide,
   c1_sandbox_check.1 envEvil St.init "/../../etc/passwd" "www" rfl (by decide)⟩

/-! ### Claim C2 -/

/-- C2: (1) whenever the `Request` collaborator's parse raises, the
handler sends a 404 (and only that) and the exception does not escape
`handle_client`; (2) one pass of the worker loop over any connection —
whatever `handle_client` does, including letting an exception escape —
never raises out of the loop body, records `task_done`, and leaves the
worker's state unchanged, so the worker keeps serving. -/
theorem c2_parse_error_isolated :
    (∀ (env : Env) (e : PyErr), env.parseResult = Except.error e →
       (∀ k, env.send k = none) →
       (handle_client env).1.events = [Event.sent 404, Event.socketClosed] ∧
       (handle_client env).2 = none) ∧
    (∀ (w : HTTPWorker) (env : Env),
       runIteration w (GetResult.conn env) =
         Except.ok ⟨w, (handle_client env).2.isNone, true⟩) := by
  constructor
  · intro env e hp hs
    unfold handle_client
    rw [tryBlock_err env e hp]
    unfold exceptBlock
    simp [doSend, hs 0, St.emit, St.init]
  · intro w env
    rfl

/-- C2 witness: a connection whose byte stream fails to parse gets the
404 trace, and the worker-loop pass over it completes normally with
`task_done`. -/
theorem c2_parse_error_isolated_witness :
    (handle_client envParseFail).1.events =
      [Event.sent 404, Event.socketClosed] ∧
    runIteration HTTPWorker.init (GetResult.conn envParseFail) =
      Except.ok ⟨HTTPWorker.init, (handle_client envParseFail).2.isNone, true⟩ :=
  ⟨(c2_parse_error_isolated.1 envParseFail PyErr.parseError rfl
      (fun _ => rfl)).1,
   c2_parse_error_isolated.2 HTTPWorker.init envParseFail⟩

/-! ### Claim C3 -/

/-- C3: for a successfully parsed request with a method other than GET
(sends and body reads succeeding), the handler's trace is the interim
and body-drain events followed by exactly a 405 and the socket close:
no file is opened and no file response is sent — `serve_file` is never
reached. -/
theorem c3_non_get_405_no_file :
    ∀ (env : Env) (req : Request),
      env.parseResult = Except.ok req →
      (∀ k, env.send k = none) →
      (∀ n, req.readBody n = none) →
      req.method ≠ "GET" →
      (handle_client env).1.events =
        preEvents req ++ [Event.sent 405, Event.socketClosed] ∧
      (∀ p, Event.fileOpen p ∉ (handle_client env).1.events) ∧
      (∀ p ct, Event.sentFile p ct ∉ (handle_client env).1.events) := by
  intro env req hp hs hb hm
  obtain ⟨he, _⟩ := handle_client_ok env req hp hs hb
  rw [he]
  unfold handlerEvents
  rw [if_pos hm]
  refine ⟨by simp, ?_, ?_⟩
  · intro p
    unfold preEvents
    by_cases h1 : expectsContinue req <;>
    by_cases h2 : contentLength req ≠ 0 <;>
    simp [h1, h2]
  · intro p ct
    unfold preEvents
    by_cases h1 : expectsContinue req <;>
    by_cases h2 : contentLength req ≠ 0 <;>
    simp [h1, h2]

/-- C3 witness: `POST /index.html` gets exactly a 405 and the file is
never opened. -/
theorem c3_non_get_405_no_file_witness :
    (handle_client envPost).1.events = [Event.sent 405, Event.socketClosed] ∧
    Event.fileOpen "/srv/www/index.html" ∉ (handle_client envPost).1.events := by
  have h := c3_non_get_405_no_file envPost reqPost rfl (fun _ => rfl)
    (fun _ => rfl) (by decide)
  refine ⟨?_, h.2.1 "/srv/www/index.html"⟩
  rw [h.1]
  decide

/-! ### Claim C4 -/

/-- C4, counterexample: with header `content-length: -1` the declared
length parses to `-1`, which is not greater than 0, yet the handler
still issues a body read (Python `if content_len:` is a nonzero test,
and `int()` accepts negative values).  This refutes the claim's "reads
... if and only if the declared length is greater than 0". -/
theorem c4_counterexample :
    contentLength reqNegLen = -1 ∧
    ¬ (0 < contentLength reqNegLen) ∧
    Event.bodyRead (-1) ∈ (handle_client envNegLen).1.events :=
  ⟨by decide, by decide, by decide⟩

/-- C4 (amended): the declared body length is
`int(headers.get("content-length", "0"))` with 0 substituted when the
header is missing or unparsable, and (with sends and reads succeeding)
the handler issues exactly one read, for exactly the declared count, if
and only if that count is nonzero (not: positive). -/
theorem c4_content_length_drain :
    (∀ req : Request, req.headers "content-length" = none →
       contentLength req = 0) ∧
    (∀ (req : Request) (s : String), req.headers "content-length" = some s →
       pythonInt s = none → contentLength req = 0) ∧
    (∀ (env : Env) (req : Request) (n : Int),
       env.parseResult = Except.ok req →
       (∀ k, env.send k = none) →
       (∀ m, req.readBody m = none) →
       (Event.bodyRead n ∈ (handle_client env).1.events ↔
         n = contentLength req ∧ contentLength req ≠ 0)) := by
  refine ⟨?_, ?_, ?_⟩
  · intro req h
    unfold contentLength
    rw [h]
    rfl
  · intro req s h hbad
    unfold contentLength
    rw [h]
    simp [hbad]
  · intro env req n hp hs hb
    obtain ⟨he, _⟩ := handle_client_ok env req hp hs hb
    rw [he]
    constructor
    · intro hmem
      obtain ⟨h1, h2⟩ := bodyRead_mem_handlerEvents env req n hmem
      exact ⟨h1, h2⟩
    · rintro ⟨rfl, hcl⟩
      exact bodyRead_mem_handlerEvents_of env req hcl

/-- C4 witness: concrete instances — a request with no `content-length`
header has declared length 0, and the `content-length: -1` request reads
exactly -1 ≠ 0 bytes-count. -/
theorem c4_content_length_drain_witness :
    contentLength reqRoot = 0 ∧
    (Event.bodyRead (-1) ∈ (handle_client envNegLen).1.events ↔
      (-1 : Int) = contentLength reqNegLen ∧ contentLength reqNegLen ≠ 0) :=
  ⟨c4_content_length_drain.1 reqRoot rfl,
   c4_content_length_drain.2.2 envNegLen reqNegLen (-1) rfl (fun _ => rfl)
     (fun _ => rfl)⟩

/-! ### Claim C5 -/

/-- C5, counterexample: the empty request path is NOT rewritten to
`/index.html` — only `"/"` is (line 114 tests `path == "/"`).  On a
root whose `index.html` exists, a GET of the empty path makes the
candidate the root directory itself; opening it raises
`IsADirectoryError`, so the client gets a 404, not the index page. -/
theorem c5_counterexample :
    rewriteRoot "" = "" ∧
    candidatePath (abspath "/srv" "www") "" = "/srv/www" ∧
    (handle_client envEmptyPath).1.events =
      [Event.sent 404, Event.socketClosed] :=
  ⟨rfl, by decide, by decide⟩

/-- C5 (amended): `serve_file` rewrites exactly the root path `"/"` to
`"/index.html"` (the empty path, like every other path, is left as is),
and a GET of `"/"` on a root containing `index.html` yields a 200-class
file response whose body source is `index.html` with content type
inferred from `.html`. -/
theorem c5_root_rewrite :
    (handle_client envRoot).1.events =
      [Event.fileOpen "/srv/www/index.html",
       Event.sentFile "/srv/www/index.html" "text/html",
       Event.fileClose, Event.socketClosed] ∧
    rewriteRoot "/" = "/index.html" ∧
    (∀ p : String, p ≠ "/" → rewriteRoot p = p) := by
  refine ⟨by decide, rfl, ?_⟩
  intro p hp
  unfold rewriteRoot
  rw [if_neg hp]

/-- C5 witness: the general non-rewrite clause applied to the empty path
and to an ordinary file path. -/
theorem c5_root_rewrite_witness :
    rewriteRoot "" = "" ∧ rewriteRoot "/other.txt" = "/other.txt" :=
  ⟨c5_root_rewrite.2.2 "" (by decide),
   c5_root_rewrite.2.2 "/other.txt" (by decide)⟩

/-! ### Claim C6 -/

/-- C6, counterexample: when open fails with something other than
`FileNotFoundError` (here `PermissionError`), `serve_file` itself does
NOT produce a 404: the exception escapes the resolver (only
`FileNotFoundError` is caught at line 134); the 404 the client sees
comes from the Connection Handler's failure boundary. -/
theorem c6_counterexample :
    serve_file envDenied St.init "/secret.txt" "www" =
      (St.init, some PyErr.permissionError) ∧
    Event.sent 404 ∉ (serve_file envDenied St.init "/secret.txt" "www").1.events :=
  ⟨by decide, by decide⟩

/-- C6 (amended): for a candidate inside the sandbox, (1) a missing file
makes `serve_file` itself send exactly a 404; (2) any other open failure
escapes `serve_file` as an exception, with no event produced and hence no
file descriptor opened; (3) the Connection Handler's failure boundary
then converts it to a 404 for the client, still with no file opened —
so in all open-failure cases the client-visible outcome is 404 and no
descriptor is leaked. -/
theorem c6_open_failure :
    (∀ (env : Env) (st : St) (path root : String),
       (∀ k, env.send k = none) →
       env.fs (candidatePath (abspath env.cwd root) path) =
         OpenOutcome.missing →
       strStarts (candidatePath (abspath env.cwd root) path)
         (abspath env.cwd root) = true →
       serve_file env st path root =
         (⟨st.events ++ [Event.sent 404], st.sendIdx + 1⟩, none)) ∧
    (∀ (env : Env) (st : St) (path root : String) (e : PyErr),
       env.fs (candidatePath (abspath env.cwd root) path) =
         OpenOutcome.failed e →
       strStarts (candidatePath (abspath env.cwd root) path)
         (abspath env.cwd root) = true →
       serve_file env st path root = (st, some e)) ∧
    (∀ (env : Env) (req : Request) (e : PyErr),
       env.parseResult = Except.ok req →
       (∀ k, env.send k = none) →
       (∀ n, req.readBody n = none) →
       req.method = "GET" →
       env.fs (candidatePath (abspath env.cwd "www") req.path) =
         OpenOutcome.failed e →
       Event.sent 404 ∈ (handle_client env).1.events ∧
       (∀ p, Event.fileOpen p ∉ (handle_client env).1.events) ∧
       (handle_client env).2 = none) := by
  refine ⟨?_, ?_, ?_⟩
  · intro env st path root hs hfs hin
    simp [serve_file, hin, hfs, doSend, hs st.sendIdx]
  · intro env st path root e hfs hin
    simp [serve_file, hin, hfs]
  · intro env req e hp hs hb hm hfs
    obtain ⟨he, hesc⟩ := handle_client_ok env req hp hs hb
    rw [he]
    refine ⟨?_, fun p => fileOpen_not_mem_handlerEvents_of_failed env req e hfs p, hesc⟩
    unfold handlerEvents
    rw [if_neg (by simp [hm])]
    rcases resolve_cases env req.path "www" with ⟨hre, hrr⟩ | ⟨e2, hre, hrr, _⟩ | ⟨hre, hrr, _, hok⟩
    · simp [hre, hrr]
    · simp [hre, hrr]
    · rw [hok] at hfs
      cases hfs

/-- C6 witness: a missing file inside the sandbox gets exactly a 404
from `serve_file` itself, and an open denied by permissions still shows
the client a 404 through the handler, with no file opened. -/
theorem c6_open_failure_witness :
    serve_file (envOf reqSecret fsWwwIndex) St.init "/secret.txt" "www" =
      (⟨[Event.sent 404], 1⟩, none) ∧
    Event.sent 404 ∈ (handle_client envDenied).1.events ∧
    Event.fileOpen "/srv/www/secret.txt" ∉ (handle_client envDenied).1.events := by
  have hmiss := c6_open_failure.1 (envOf reqSecret fsWwwIndex) St.init
    "/secret.txt" "www" (fun _ => rfl) (by decide) (by decide)
  have hden := c6_open_failure.2.2 envDenied reqSecret PyErr.permissionError
    rfl (fun _ => rfl) (fun _ => rfl) rfl (by decide)
  exact ⟨hmiss, hden.1, hden.2.1 "/srv/www/secret.txt"⟩

/-! ### Claim C7 -/

/-- C7: for any successfully parsed request (sends and reads
succeeding): the interim 100 response is sent iff the string
`100-continue` occurs in the `expect` header's value (missing header
read as ""); it is sent before anything else (it is the head of the
trace exactly when the header matches); and processing is not
short-circuited — a final response (405, 404 or a file response) is
always produced as well. -/
theorem c7_expect_100 :
    ∀ (env : Env) (req : Request),
      env.parseResult = Except.ok req →
      (∀ k, env.send k = none) →
      (∀ n, req.readBody n = none) →
      ((Event.sent 100 ∈ (handle_client env).1.events ↔
         strHasSub ((req.headers "expect").getD "") "100-continue" = true) ∧
       ((handle_client env).1.events.head? = some (Event.sent 100) ↔
         expectsContinue req = true) ∧
       (Event.sent 405 ∈ (handle_client env).1.events ∨
        Event.sent 404 ∈ (handle_client env).1.events ∨
        ∃ p ct, Event.sentFile p ct ∈ (handle_client env).1.events)) := by
  intro env req hp hs hb
  obtain ⟨he, _⟩ := handle_client_ok env req hp hs hb
  rw [he]
  exact ⟨sent100_mem_handlerEvents env req,
    head_handlerEvents env req,
    final_mem_handlerEvents env req⟩

/-- C7 witness: a GET of `/` with `expect: 100-continue` produces the
interim 100 at the head of the trace and still serves the final file
response. -/
theorem c7_expect_100_witness :
    Event.sent 100 ∈ (handle_client envExpect).1.events ∧
    (handle_client envExpect).1.events.head? = some (Event.sent 100) ∧
    Event.sentFile "/srv/www/index.html" "text/html" ∈
      (handle_client envExpect).1.events := by
  have h := c7_expect_100 envExpect reqExpect rfl (fun _ => rfl) (fun _ => rfl)
  exact ⟨h.1.mpr (by decide), h.2.1.mpr (by decide), by decide⟩

/-! ### Claim C8 -/

/-- C8: for every connection environment — whatever the parse outcome,
send outcomes, body reads or filesystem do — the trace of
`handle_client` ends with the socket-close event: the `with client_sock`
scope closes the socket on normal completion, on the early 405 return
and on every exception path (including an exception escaping the
fallback 404 send). -/
theorem c8_socket_always_closed (env : Env) :
    (handle_client env).1.events.getLast? = some Event.socketClosed ∧
    Event.socketClosed ∈ (handle_client env).1.events := by
  unfold handle_client
  constructor
  · simp only [St.emit]
    exact getLast?_concat_eq _ _
  · simp [St.emit]

/-! ### Claim C9 -/

/-- C9: after construction the connection queue is empty with capacity
exactly `worker_count * 8`; a blocking `put` on a queue at that capacity
blocks (returns `none`, the queue unchanged — the connection is delayed,
not dropped or rejected); below capacity `put` appends at the back; in
general every `put` either blocks or appends (nothing is ever lost), and
`get` takes from the front (FIFO). -/
theorem c9_bounded_fifo_backpressure :
    ∀ wc : Nat, 0 < wc →
      (((HTTPServer.init "127.0.0.1" 8080 wc).connection_queue Nat).maxsize =
          ((wc * 8 : Nat) : Int) ∧
        ((HTTPServer.init "127.0.0.1" 8080 wc).connection_queue Nat).items = []) ∧
      (∀ (q : PyQueue Nat) (x : Nat), q.maxsize = ((wc * 8 : Nat) : Int) →
        (q.items.length = wc * 8 → q.put x = none) ∧
        (q.items.length < wc * 8 →
          q.put x = some ⟨q.maxsize, q.items ++ [x]⟩)) ∧
      (∀ (q : PyQueue Nat) (x : Nat),
        q.put x = none ∨ q.put x = some ⟨q.maxsize, q.items ++ [x]⟩) ∧
      (∀ (m : Int) (x : Nat) (rest : List Nat),
        PyQueue.get ⟨m, x :: rest⟩ = some (x, ⟨m, rest⟩)) := by
  intro wc hwc
  refine ⟨⟨rfl, rfl⟩, ?_, ?_, ?_⟩
  · intro q x hcap
    constructor
    · intro hlen
      unfold PyQueue.put
      rw [if_pos]
      constructor
      · rw [hcap]
        exact_mod_cast Nat.mul_pos hwc (by norm_num)
      · rw [hcap, hlen]
    · intro hlen
      unfold PyQueue.put
      rw [if_neg]
      intro ⟨_, hle⟩
      rw [hcap] at hle
      have := Int.ofNat_le.mp hle
      omega
  · intro q x
    unfold PyQueue.put
    by_cases h : 0 < q.maxsize ∧ (q.maxsize ≤ (q.items.length : Int))
    · left; rw [if_pos h]
    · right; rw [if_neg h]
  · intro m x rest
    rfl

/-- C9 witness: with one worker the capacity is 8; a queue holding 8
pending connections blocks the producer, and a shorter queue accepts the
connection at the back. -/
theorem c9_bounded_fifo_backpressure_witness :
    (⟨8, [0, 1, 2, 3, 4, 5, 6, 7]⟩ : PyQueue Nat).put 9 = none ∧
    (⟨8, [0, 1]⟩ : PyQueue Nat).put 9 = some ⟨8, [0, 1, 9]⟩ := by
  have h := c9_bounded_fifo_backpressure 1 (by decide)
  exact ⟨(h.2.1 ⟨8, [0, 1, 2, 3, 4, 5, 6, 7]⟩ 9 rfl).1 (by decide),
    (h.2.1 ⟨8, [0, 1]⟩ 9 rfl).2 (by decide)⟩

/-! ### Claim C10 -/

/-- C10: `HTTPWorker.run`'s first action sets `running := True`
unconditionally, so a `stop()` that precedes the thread's entry into
`run()` is overwritten: after `stop` the flag is `False`, after the
subsequent `run` entry it is `True` again, the loop condition holds on
entry, and the worker does not terminate in response to that earlier
stop request. -/
theorem c10_run_overwrites_early_stop :
    (HTTPWorker.init.stop).running = false ∧
    ((HTTPWorker.init.stop).runEntry).running = true ∧
    HTTPWorker.loopCondition ((HTTPWorker.init.stop).runEntry) = true ∧
    (∀ w : HTTPWorker, (w.stop).runEntry = HTTPWorker.init) :=
  ⟨rfl, rfl, rfl, fun _ => rfl⟩

end PyServer
